import Mathlib

/-!
Shallow embedding of the recruitment-workflow core of the `salsabil` Flask
application (src/models.py, src/app.py, src/pdf_generator.py, schema in
src/database.py).

The SQLite state is modelled as explicit lists of rows; `UPDATE ... WHERE id = ?`
becomes a map over the rows guarded by the id, and `INSERT` appends a row.
Nondeterministic inputs of the Python code (current time, generated file names,
the random salt that feeds the verification-code hash, success of the external
PDF library) are threaded as explicit parameters.  Fallible lookups return
`Option`.
-/

namespace Salsabil

/-- Python truthiness of an optional string (`None` and `''` are falsy). -/
def truthy : Option String → Bool
  | none => false
  | some s => s != ""

/-- Python `a or b` on an optional string with a string default:
`app_data.get('selected_job_title') or app_data['job_title']`. -/
def pyOr : Option String → String → String
  | none, d => d
  | some s, d => if s = "" then d else s

/-- A row of the `applications` table (the columns the workflow touches;
schema defaults from src/database.py: `workflow_phase 'phase1'`,
`phase1_status 'pending'`, `status 'en attente'`, notification flags 0). -/
structure Application where
  id : Nat
  prenom : String
  nom : String
  job_id : Option Nat
  job_title : String
  selected_job_title : Option String
  status : String := "en attente"
  workflow_phase : String := "phase1"
  phase1_status : String := "pending"
  phase1_date : Option String := none
  phase1_notification_sent : Bool := false
  interview_date : Option String := none
  interview_notes : Option String := none
  interview_invitation_pdf : Option String := none
  interview_invitation_pdf_ar : Option String := none
  phase2_status : Option String := none
  phase2_date : Option String := none
  phase2_notification_sent : Bool := false
  work_start_date : Option String := none
  rejection_reason : Option String := none
  acceptance_letter_pdf : Option String := none
  acceptance_letter_pdf_ar : Option String := none
deriving Repr, DecidableEq

/-- A row of the `document_verifications` table. -/
structure VerificationRecord where
  verification_code : String
  application_id : Nat
  document_type : String
  candidate_name : String
  job_title : String
  issue_date : String
  pdf_path : String
  status : String
deriving Repr, DecidableEq

/-- The database state the workflow reads and writes. -/
structure DB where
  applications : List Application
  document_verifications : List VerificationRecord
deriving Repr, DecidableEq

/-- `UPDATE applications SET ... WHERE id = ?`: apply `f` to the rows whose
`id` matches.  An SQL `UPDATE ... SET` never touches the primary key, so the
`id` column is carried over structurally. -/
def mapApp (db : DB) (app_id : Nat) (f : Application → Application) : DB :=
  { db with applications := (db.applications.map
      (fun a => if a.id = app_id then { f a with id := a.id } else a)) }

/-- `SELECT * FROM applications WHERE id = ?` / the route-side
`next((app for app in get_all_applications() if app['id'] == app_id), None)`. -/
def findApp (db : DB) (app_id : Nat) : Option Application :=
  db.applications.find? (fun a => a.id = app_id)

/-- A rendered PDF as far as verification is concerned: where it was written
and the URL its QR code and footer carry. -/
structure RenderedDoc where
  path : String
  qr_url : String
deriving Repr, DecidableEq

/-- `add_qr_and_code` (src/pdf_generator.py): the embedded URL is
`f"{base_url}/verify/{verification_code}"`. -/
def verification_url (base_url code : String) : String :=
  base_url ++ "/verify/" ++ code

/-- `models.update_phase1_status` (src/models.py).  On
`selected_for_interview` it updates the row (phase1 fields, workflow_phase
`'phase1'`, status `'interview programmé'`), then — inside a `try` whose
failure is swallowed, here the flag `pdfOk` — renders one convocation PDF
carrying `verification_code`, stores its file name on the row and inserts a
`document_verifications` row.  On `rejected` it updates the row only.  Any
other decision runs no SQL at all.  Returns the new state and the rendered
documents. -/
def update_phase1_status (now issueDate base_url : String)
    (verification_code pdf_filename : String) (pdfOk : Bool)
    (db : DB) (app_id : Nat) (decision : String)
    (interview_date rejection_reason : Option String) : DB × List RenderedDoc :=
  if decision = "selected_for_interview" then
    let db1 := mapApp db app_id (fun a =>
      { a with phase1_status := decision, phase1_date := some now,
               interview_date := interview_date,
               workflow_phase := "phase1", status := "interview programmé" })
    match findApp db1 app_id, pdfOk with
    | some app_data, true =>
      let pdf_path := "static/convocations/" ++ pdf_filename
      let doc : RenderedDoc := ⟨pdf_path, verification_url base_url verification_code⟩
      let db2 := mapApp db1 app_id (fun a =>
        { a with interview_invitation_pdf := some pdf_filename })
      let vrec : VerificationRecord :=
        ⟨verification_code, app_id, "convocation",
         app_data.prenom ++ " " ++ app_data.nom,
         pyOr app_data.selected_job_title app_data.job_title,
         issueDate, pdf_path, "valide"⟩
      ({ db2 with document_verifications := db2.document_verifications ++ [vrec] },
       [doc])
    | _, _ => (db1, [])
  else if decision = "rejected" then
    (mapApp db app_id (fun a =>
      { a with phase1_status := decision, phase1_date := some now,
               rejection_reason := rejection_reason,
               workflow_phase := "completed", status := "rejetée" }), [])
  else (db, [])

/-- `models.update_phase2_status` (src/models.py): `accepted` and `rejected`
update the row (there is no check of `phase1_status`); any other decision
runs no SQL. -/
def update_phase2_status (now : String) (db : DB) (app_id : Nat)
    (decision : String) (work_start_date rejection_reason : Option String) : DB :=
  if decision = "accepted" then
    mapApp db app_id (fun a =>
      { a with phase2_status := some decision, phase2_date := some now,
               work_start_date := work_start_date,
               workflow_phase := "completed", status := "acceptée" })
  else if decision = "rejected" then
    mapApp db app_id (fun a =>
      { a with phase2_status := some decision, phase2_date := some now,
               rejection_reason := rejection_reason,
               workflow_phase := "completed", status := "rejetée" })
  else db

/-- `models.mark_notification_sent` (src/models.py): sets the one flag of the
given phase; any other `phase` value runs no SQL. -/
def mark_notification_sent (db : DB) (app_id phase : Nat) : DB :=
  if phase = 1 then
    mapApp db app_id (fun a => { a with phase1_notification_sent := true })
  else if phase = 2 then
    mapApp db app_id (fun a => { a with phase2_notification_sent := true })
  else db

/-- `models.add_interview_notes` (src/models.py). -/
def add_interview_notes (db : DB) (app_id : Nat) (notes : String) : DB :=
  mapApp db app_id (fun a => { a with interview_notes := some notes })

/-- `models.save_interview_invitation_pdf` (src/models.py). -/
def save_interview_invitation_pdf (db : DB) (app_id : Nat)
    (fr : String) (ar : Option String) : DB :=
  if truthy ar then
    mapApp db app_id (fun a =>
      { a with interview_invitation_pdf := some fr,
               interview_invitation_pdf_ar := ar })
  else
    mapApp db app_id (fun a => { a with interview_invitation_pdf := some fr })

/-- `models.save_acceptance_letter_pdf` (src/models.py). -/
def save_acceptance_letter_pdf (db : DB) (app_id : Nat)
    (fr : String) (ar : Option String) : DB :=
  if truthy ar then
    mapApp db app_id (fun a =>
      { a with acceptance_letter_pdf := some fr,
               acceptance_letter_pdf_ar := ar })
  else
    mapApp db app_id (fun a => { a with acceptance_letter_pdf := some fr })

/-- Does the second list start with the first? -/
def startsWithList : List Char → List Char → Bool
  | [], _ => true
  | _ :: _, [] => false
  | p :: ps, c :: cs => p = c && startsWithList ps cs

/-- Python `str.replace`, left-to-right and non-overlapping, over character
lists; the fuel is the input length, enough for any non-empty pattern. -/
def pyReplaceAux : Nat → List Char → List Char → List Char → List Char
  | 0, s, _, _ => s
  | _ + 1, [], _, _ => []
  | fuel + 1, c :: rest, p, r =>
    if startsWithList p (c :: rest) then
      r ++ pyReplaceAux fuel ((c :: rest).drop p.length) p r
    else c :: pyReplaceAux fuel rest p r

/-- Python `s.replace(pat, repl)`. -/
def pyReplace (s pat repl : String) : String :=
  String.mk (pyReplaceAux s.toList.length s.toList pat.toList repl.toList)

/-- `pdf_filename_fr.replace('.pdf', '_AR.pdf')` (src/app.py). -/
def arFilename (fr : String) : String :=
  pyReplace fr ".pdf" "_AR.pdf"

/-- `admin_phase1_decision` (src/app.py, route
`/admin/applications/<id>/phase1-decision`).  After the optional
`selected_job_title` save and the call to `models.update_phase1_status`
(which itself issues a code `c1` and inserts a record), the route — when the
decision is `selected_for_interview` and an interview date was posted —
issues a second code `c2`, renders the French and the Arabic convocation
with that one code, saves both file names on the row and inserts a second
`document_verifications` row.  Returns the state and every rendered
document, in order. -/
def admin_phase1_decision (now issueDate : String)
    (base_url_models c1 f1 : String) (pdfOk : Bool)
    (base_url c2 fnFr : String)
    (db : DB) (app_id : Nat) (decision : String)
    (interview_date rejection_reason selected_job_title : Option String) :
    DB × List RenderedDoc :=
  match findApp db app_id with
  | none => (db, [])
  | some app0 =>
    let db1 :=
      if app0.job_id = none ∧ truthy selected_job_title then
        mapApp db app_id (fun a => { a with selected_job_title := selected_job_title })
      else db
    let appMem :=
      if app0.job_id = none ∧ truthy selected_job_title then
        { app0 with job_title := selected_job_title.getD "" }
      else app0
    let r1 := update_phase1_status now issueDate base_url_models c1 f1 pdfOk
                db1 app_id decision interview_date rejection_reason
    if decision = "selected_for_interview" ∧ truthy interview_date then
      let fnAr := arFilename fnFr
      let pFr := "static/convocations/" ++ fnFr
      let pAr := "static/convocations/" ++ fnAr
      let docFr : RenderedDoc := ⟨pFr, verification_url base_url c2⟩
      let docAr : RenderedDoc := ⟨pAr, verification_url base_url c2⟩
      let db3 := save_interview_invitation_pdf r1.1 app_id fnFr (some fnAr)
      let vrec : VerificationRecord :=
        ⟨c2, app_id, "convocation",
         appMem.prenom ++ " " ++ appMem.nom,
         pyOr appMem.selected_job_title appMem.job_title,
         issueDate, fnFr, "valide"⟩
      ({ db3 with document_verifications := db3.document_verifications ++ [vrec] },
       r1.2 ++ [docFr, docAr])
    else (r1.1, r1.2)

/-- `admin_phase2_decision` (src/app.py, route
`/admin/applications/<id>/phase2-decision`).  There is no check of the
phase-1 state: the posted decision goes straight to
`models.update_phase2_status`.  On `accepted` the route issues one code,
renders the French and the Arabic acceptance letter with it, saves both file
names and inserts one `document_verifications` row. -/
def admin_phase2_decision (now issueDate base_url code fnFr : String)
    (db : DB) (app_id : Nat) (decision : String)
    (work_start_date rejection_reason interview_notes : Option String) :
    DB × List RenderedDoc :=
  match findApp db app_id with
  | none => (db, [])
  | some app0 =>
    let db1 :=
      if truthy interview_notes then
        add_interview_notes db app_id (interview_notes.getD "")
      else db
    let db2 := update_phase2_status now db1 app_id decision
                 work_start_date rejection_reason
    if decision = "accepted" then
      let fnAr := arFilename fnFr
      let pFr := "static/acceptances/" ++ fnFr
      let pAr := "static/acceptances/" ++ fnAr
      let docFr : RenderedDoc := ⟨pFr, verification_url base_url code⟩
      let docAr : RenderedDoc := ⟨pAr, verification_url base_url code⟩
      let db3 := save_acceptance_letter_pdf db2 app_id fnFr (some fnAr)
      let vrec : VerificationRecord :=
        ⟨code, app_id, "acceptation",
         app0.prenom ++ " " ++ app0.nom,
         pyOr app0.selected_job_title app0.job_title,
         issueDate, pFr, "valide"⟩
      ({ db3 with document_verifications := db3.document_verifications ++ [vrec] },
       [docFr, docAr])
    else (db2, [])

/-- `admin_regenerate_acceptance_letter` (src/app.py, route
`/admin/applications/<id>/regenerate-acceptance-letter`).  For an accepted
application it issues a fresh code, renders both letters with it and saves
the file names on the row — and inserts nothing into
`document_verifications`. -/
def admin_regenerate_acceptance_letter (base_url code fnFr : String)
    (db : DB) (app_id : Nat) : DB × List RenderedDoc :=
  match findApp db app_id with
  | none => (db, [])
  | some app0 =>
    if app0.phase2_status ≠ some "accepted" then (db, [])
    else
      let fnAr := arFilename fnFr
      let pFr := "static/acceptances/" ++ fnFr
      let pAr := "static/acceptances/" ++ fnAr
      let docFr : RenderedDoc := ⟨pFr, verification_url base_url code⟩
      let docAr : RenderedDoc := ⟨pAr, verification_url base_url code⟩
      let db1 := save_acceptance_letter_pdf db app_id fnFr (some fnAr)
      (db1, [docFr, docAr])

/-- Python `str.upper()` on the ASCII strings this application handles:
uppercase every character. -/
def pyUpper (s : String) : String :=
  String.mk (s.toList.map Char.toUpper)

/-- A character Python `str.strip()` removes. -/
def isPySpace (c : Char) : Bool :=
  c = ' ' || c = '\t' || c = '\n' || c = '\r' || c = '\x0b' || c = '\x0c'

/-- Python `str.strip()`: drop leading and trailing whitespace. -/
def pyStrip (s : String) : String :=
  String.mk (((s.toList.dropWhile isPySpace).reverse.dropWhile isPySpace).reverse)

/-- The `SELECT ... FROM document_verifications WHERE verification_code = ?`
of the verify route: the first row whose code matches. -/
def lookupVerification (db : DB) (code : String) : Option VerificationRecord :=
  db.document_verifications.find? (fun r => r.verification_code = code)

/-- `verify_document` (src/app.py, public route `GET /verify/<code>`): the
query is uppercased — `verification_code.upper()` — and nothing else, then
looked up; the template receives the row or `None`. -/
def verify_document (db : DB) (verification_code : String) :
    Option VerificationRecord :=
  lookupVerification db (pyUpper verification_code)

/-- `verify_redirect` (src/app.py, `POST /verify-redirect`): the form value
is stripped and uppercased; an empty result is flashed away (`none`),
otherwise the request is redirected to `verify_document` on the normalized
code. -/
def verify_redirect (db : DB) (form_code : String) :
    Option (Option VerificationRecord) :=
  let code := pyUpper (pyStrip form_code)
  if code = "" then none
  else some (verify_document db code)

/-! SHA-256 (FIPS 180-4), the `hashlib.sha256(...).hexdigest()` that
`generate_verification_code` (src/pdf_generator.py) builds on.  Bytes and
32-bit words are `Nat` reduced modulo `2 ^ 32` where the standard wraps. -/

/-- `2 ^ 32`, the word modulus. -/
def w32 : Nat := 4294967296

/-- Right rotation of a 32-bit word. -/
def rotr (n x : Nat) : Nat := (x / 2 ^ n + x % 2 ^ n * 2 ^ (32 - n)) % w32

/-- Logical right shift. -/
def shr (n x : Nat) : Nat := x / 2 ^ n

/-- Bitwise complement on 32 bits. -/
def not32 (x : Nat) : Nat := x ^^^ (w32 - 1)

/-- SHA-256 `Ch`. -/
def sha_ch (x y z : Nat) : Nat := (x &&& y) ^^^ (not32 x &&& z)

/-- SHA-256 `Maj`. -/
def sha_maj (x y z : Nat) : Nat := (x &&& y) ^^^ (x &&& z) ^^^ (y &&& z)

/-- SHA-256 `Σ0`. -/
def bigSigma0 (x : Nat) : Nat := rotr 2 x ^^^ rotr 13 x ^^^ rotr 22 x

/-- SHA-256 `Σ1`. -/
def bigSigma1 (x : Nat) : Nat := rotr 6 x ^^^ rotr 11 x ^^^ rotr 25 x

/-- SHA-256 `σ0`. -/
def smallSigma0 (x : Nat) : Nat := rotr 7 x ^^^ rotr 18 x ^^^ shr 3 x

/-- SHA-256 `σ1`. -/
def smallSigma1 (x : Nat) : Nat := rotr 17 x ^^^ rotr 19 x ^^^ shr 10 x

/-- The 64 SHA-256 round constants (the fractional parts of the cube roots
of the first 64 primes, scaled to 32 bits; written in decimal). -/
def K256 : List Nat :=
  [1116352408, 1899447441, 3049323471, 3921009573,
   961987163, 1508970993, 2453635748, 2870763221,
   3624381080, 310598401, 607225278, 1426881987,
   1925078388, 2162078206, 2614888103, 3248222580,
   3835390401, 4022224774, 264347078, 604807628,
   770255983, 1249150122, 1555081692, 1996064986,
   2554220882, 2821834349, 2952996808, 3210313671,
   3336571891, 3584528711, 113926993, 338241895,
   666307205, 773529912, 1294757372, 1396182291,
   1695183700, 1986661051, 2177026350, 2456956037,
   2730485921, 2820302411, 3259730800, 3345764771,
   3516065817, 3600352804, 4094571909, 275423344,
   430227734, 506948616, 659060556, 883997877,
   958139571, 1322822218, 1537002063, 1747873779,
   1955562222, 2024104815, 2227730452, 2361852424,
   2428436474, 2756734187, 3204031479, 3329325298]

/-- The eight hash words carried between blocks. -/
structure Sha256State where
  h0 : Nat
  h1 : Nat
  h2 : Nat
  h3 : Nat
  h4 : Nat
  h5 : Nat
  h6 : Nat
  h7 : Nat
deriving Repr, DecidableEq

/-- The SHA-256 initial hash value (fractional parts of the square roots of
the first 8 primes, scaled to 32 bits; written in decimal). -/
def sha256init : Sha256State :=
  ⟨1779033703, 3144134277, 1013904242, 2773480762,
   1359893119, 2600822924, 528734635, 1541459225⟩

/-- The eight working variables of the round function. -/
structure Sha256Work where
  a : Nat
  b : Nat
  c : Nat
  d : Nat
  e : Nat
  f : Nat
  g : Nat
  h : Nat

/-- Big-endian 32-bit word `i` of a 64-byte block. -/
def wordAt (block : List Nat) (i : Nat) : Nat :=
  block.getD (4 * i) 0 * 16777216 + block.getD (4 * i + 1) 0 * 65536 +
    block.getD (4 * i + 2) 0 * 256 + block.getD (4 * i + 3) 0

/-- The 64-entry message schedule of a block. -/
def sha256schedule (block : List Nat) : List Nat :=
  (List.range 64).foldl (fun w i =>
    if i < 16 then w ++ [wordAt block i]
    else w ++ [(w.getD (i - 16) 0 + smallSigma0 (w.getD (i - 15) 0) +
                w.getD (i - 7) 0 + smallSigma1 (w.getD (i - 2) 0)) % w32]) []

/-- One SHA-256 round, fed the pair of schedule word and round constant. -/
def sha256round (t : Sha256Work) (wk : Nat × Nat) : Sha256Work :=
  let t1 := (t.h + bigSigma1 t.e + sha_ch t.e t.f t.g + wk.2 + wk.1) % w32
  let t2 := (bigSigma0 t.a + sha_maj t.a t.b t.c) % w32
  ⟨(t1 + t2) % w32, t.a, t.b, t.c, (t.d + t1) % w32, t.e, t.f, t.g⟩

/-- Compress one 64-byte block into the running state. -/
def sha256compress (st : Sha256State) (block : List Nat) : Sha256State :=
  let t := ((sha256schedule block).zip K256).foldl sha256round
    ⟨st.h0, st.h1, st.h2, st.h3, st.h4, st.h5, st.h6, st.h7⟩
  ⟨(st.h0 + t.a) % w32, (st.h1 + t.b) % w32, (st.h2 + t.c) % w32,
   (st.h3 + t.d) % w32, (st.h4 + t.e) % w32, (st.h5 + t.f) % w32,
   (st.h6 + t.g) % w32, (st.h7 + t.h) % w32⟩

/-- The bit length of the message as eight big-endian bytes. -/
def lenBytes (n : Nat) : List Nat :=
  [n / 2 ^ 56 % 256, n / 2 ^ 48 % 256, n / 2 ^ 40 % 256, n / 2 ^ 32 % 256,
   n / 2 ^ 24 % 256, n / 2 ^ 16 % 256, n / 2 ^ 8 % 256, n % 256]

/-- SHA-256 padding: `0x80`, zeros to 56 mod 64, then the bit length. -/
def sha256pad (msg : List Nat) : List Nat :=
  msg ++ [128] ++ List.replicate ((64 - (msg.length + 9) % 64) % 64) 0 ++
    lenBytes (msg.length * 8)

/-- SHA-256 of a byte sequence: compress the padded blocks in order. -/
def sha256 (msg : List Nat) : Sha256State :=
  let padded := sha256pad msg
  (List.range (padded.length / 64)).foldl
    (fun st i => sha256compress st ((padded.drop (64 * i)).take 64)) sha256init

/-- The sixteen lower-case hex digits, in value order. -/
def hexDigits : List Char := "0123456789abcdef".toList

/-- The hex digit of a nibble. -/
def hexChar (n : Nat) : Char := hexDigits.getD (n % 16) '0'

/-- `n` as exactly `w` hex digits, most significant first. -/
def toHexFixed : Nat → Nat → List Char
  | 0, _ => []
  | w + 1, n => toHexFixed w (n / 16) ++ [hexChar n]

/-- `hashlib.sha256(data).hexdigest()`: the 32 digest bytes — the eight hash
words big-endian — as 64 lower-case hex characters. -/
def sha256hexdigest (msg : List Nat) : String :=
  let st := sha256 msg
  String.mk (toHexFixed 8 st.h0 ++ toHexFixed 8 st.h1 ++ toHexFixed 8 st.h2 ++
    toHexFixed 8 st.h3 ++ toHexFixed 8 st.h4 ++ toHexFixed 8 st.h5 ++
    toHexFixed 8 st.h6 ++ toHexFixed 8 st.h7)

/-- `data.encode()`: the UTF-8 bytes of a string. -/
def strBytes (s : String) : List Nat :=
  s.toUTF8.toList.map (fun b => b.toNat)

/-- `generate_verification_code` (src/pdf_generator.py).  The Python body
draws `timestamp = datetime.now().isoformat()` and
`random_salt = secrets.token_hex(16)` — 32 hex characters, 128 bits of
CSPRNG entropy — here passed in explicitly; it then hashes
`f"{application_id}-{document_type}-{timestamp}-{random_salt}"` with SHA-256
and returns the first 16 hex characters of the digest, uppercased. -/
def generate_verification_code (application_id : Nat)
    (document_type timestamp random_salt : String) : String :=
  let data := toString application_id ++ "-" ++ document_type ++ "-" ++
    timestamp ++ "-" ++ random_salt
  let verification_hash := sha256hexdigest (strBytes data)
  String.mk ((verification_hash.toList.take 16).map Char.toUpper)

/-! Decision sequences.  The admin routes put no precondition on the posted
decisions, so any interleaving of phase-1 and phase-2 decisions can reach
`update_phase1_status` / `update_phase2_status`; a decision event carries
the same nondeterministic inputs those functions take. -/

/-- One posted phase decision, with the ambient inputs it is applied with. -/
inductive DecisionEvent where
  | p1 (now issueDate base_url code fn : String) (pdfOk : Bool)
      (decision : String) (interview_date rejection_reason : Option String)
  | p2 (now : String) (decision : String)
      (work_start_date rejection_reason : Option String)
deriving Repr, DecidableEq

/-- Apply one decision to the database, as the corresponding model function
does. -/
def applyDecision (app_id : Nat) (db : DB) : DecisionEvent → DB
  | .p1 now issueDate base_url code fn pdfOk d idate rr =>
    (update_phase1_status now issueDate base_url code fn pdfOk
      db app_id d idate rr).1
  | .p2 now d wsd rr => update_phase2_status now db app_id d wsd rr

/-- A decision the code recognizes (everything else runs no SQL). -/
def recognized : DecisionEvent → Bool
  | .p1 _ _ _ _ _ _ d _ _ => d == "selected_for_interview" || d == "rejected"
  | .p2 _ d _ _ => d == "accepted" || d == "rejected"

/-- A terminal decision: a phase-1 rejection, or any recognized phase-2
decision (acceptance or rejection). -/
def terminal : DecisionEvent → Bool
  | .p1 _ _ _ _ _ _ d _ _ => d == "rejected"
  | .p2 _ d _ _ => d == "accepted" || d == "rejected"

/-- Apply a sequence of decisions in order. -/
def runDecisions (db : DB) (app_id : Nat) (evs : List DecisionEvent) : DB :=
  evs.foldl (applyDecision app_id) db

/-- The last recognized decision of a sequence, if any. -/
def lastRecognized : List DecisionEvent → Option DecisionEvent
  | [] => none
  | ev :: rest =>
    match lastRecognized rest with
    | some x => some x
    | none => if recognized ev then some ev else none

/-- The pair of notification flags of a row. -/
def flagsOf (a : Application) : Bool × Bool :=
  (a.phase1_notification_sent, a.phase2_notification_sent)

/-- A row with its notification flags reset — equality under `eraseFlags`
says every column except the two flags agrees. -/
def eraseFlags (a : Application) : Application :=
  { a with phase1_notification_sent := false, phase2_notification_sent := false }

/-! Concrete sample rows for witnesses and counterexamples. -/

/-- A freshly submitted application: every workflow column at its schema
default. -/
def appA : Application :=
  { id := 1, prenom := "Ali", nom := "Said", job_id := some 5,
    job_title := "Guard", selected_job_title := none }

/-- A database holding just `appA` and no verification records. -/
def dbA : DB := { applications := [appA], document_verifications := [] }

/-- An application accepted in phase 2. -/
def appAcc : Application :=
  { id := 2, prenom := "Mouna", nom := "Ahmed", job_id := some 5,
    job_title := "Nurse", selected_job_title := none,
    status := "acceptée", workflow_phase := "completed",
    phase1_status := "selected_for_interview",
    phase2_status := some "accepted" }

/-- A verification record issued earlier for `appAcc`. -/
def recOld : VerificationRecord :=
  ⟨"0AB1C2D3E4F50617", 2, "acceptation", "Mouna Ahmed", "Nurse",
   "01/02/2024", "static/acceptances/old.pdf", "valide"⟩

/-- A database holding `appAcc` and its earlier record. -/
def dbB : DB := { applications := [appAcc], document_verifications := [recOld] }

/-- A stored convocation record for `appA`, uppercase code. -/
def recC : VerificationRecord :=
  ⟨"ABCD1234ABCD1234", 1, "convocation", "Ali Said", "Guard",
   "01/01/2024", "static/convocations/f.pdf", "valide"⟩

/-- A database holding `appA` and the record `recC`. -/
def dbC : DB := { applications := [appA], document_verifications := [recC] }

/-! Helper lemmas about the row-update combinators. -/

theorem findApp_mapApp (db : DB) (i : Nat) (f : Application → Application) :
    findApp (mapApp db i f) i
      = (findApp db i).map (fun a => { f a with id := a.id }) := by
  show (db.applications.map
      fun a => if a.id = i then { f a with id := a.id } else a).find?
      (fun a => a.id = i)
    = (db.applications.find? (fun a => a.id = i)).map
        (fun a => { f a with id := a.id })
  induction db.applications with
  | nil => rfl
  | cons a l ih =>
    by_cases h : a.id = i
    · simp [List.find?, h]
    · simp only [List.map_cons, List.find?, if_neg h,
        show decide (a.id = i) = false by simpa using h]
      exact ih

theorem mapApp_dv (db : DB) (i : Nat) (f : Application → Application) :
    (mapApp db i f).document_verifications = db.document_verifications := rfl

theorem mapApp_map {β : Type} (db : DB) (i : Nat)
    (f : Application → Application) (g : Application → β)
    (hg : ∀ a, g { f a with id := a.id } = g a) :
    (mapApp db i f).applications.map g = db.applications.map g := by
  show (db.applications.map
      fun a => if a.id = i then { f a with id := a.id } else a).map g = _
  rw [List.map_map]
  apply List.map_congr_left
  intro a _
  show g (if a.id = i then { f a with id := a.id } else a) = g a
  by_cases h : a.id = i
  · rw [if_pos h]
    exact hg a
  · rw [if_neg h]

theorem find_append_right {α : Type} (p : α → Bool) (l₁ l₂ : List α)
    (h : ∀ x ∈ l₁, p x = false) :
    (l₁ ++ l₂).find? p = l₂.find? p := by
  induction l₁ with
  | nil => rfl
  | cons a l ih =>
    simp only [List.cons_append, List.find?]
    rw [h a (by simp)]
    exact ih fun x hx => h x (by simp [hx])

theorem find_none {α : Type} (p : α → Bool) (l : List α)
    (h : ∀ x ∈ l, p x = false) : l.find? p = none := by
  have := find_append_right p l [] h
  simpa using this

theorem find_some_of_mem {α : Type} (p : α → Bool) (l : List α) (x : α)
    (hx : x ∈ l) (hp : p x = true) :
    ∃ y, l.find? p = some y ∧ p y = true := by
  induction l with
  | nil => cases hx
  | cons a t ih =>
    cases hpa : p a with
    | true => exact ⟨a, by simp [List.find?, hpa], hpa⟩
    | false =>
      rcases List.mem_cons.1 hx with h | h
      · subst h; rw [hp] at hpa; cases hpa
      · have ⟨y, hy, hpy⟩ := ih h
        exact ⟨y, by simp [List.find?, hpa, hy], hpy⟩

/-- C10: a decision value outside the allowed enumeration — not
`selected_for_interview`/`rejected` for `update_phase1_status`, not
`accepted`/`rejected` for `update_phase2_status` — falls through every
branch: no row is updated, nothing is inserted, nothing is rendered, and no
error is signalled; the database comes back exactly as it went in. -/
theorem C10_unrecognized_decision_is_noop
    (now issueDate base_url code fn : String) (pdfOk : Bool)
    (db : DB) (app_id : Nat) (d1 d2 : String)
    (idate rr1 wsd rr2 : Option String)
    (h1 : d1 ≠ "selected_for_interview") (h2 : d1 ≠ "rejected")
    (h3 : d2 ≠ "accepted") (h4 : d2 ≠ "rejected") :
    update_phase1_status now issueDate base_url code fn pdfOk
        db app_id d1 idate rr1 = (db, [])
    ∧ update_phase2_status now db app_id d2 wsd rr2 = db := by
  constructor
  · unfold update_phase1_status
    rw [if_neg h1, if_neg h2]
  · unfold update_phase2_status
    rw [if_neg h3, if_neg h4]

theorem C10_witness :
    update_phase1_status "2024-03-01 09:00:00" "01/03/2024"
        "http://localhost:5000" "0AB1C2D3E4F50617" "conv.pdf" true
        dbA 1 "banana" none none = (dbA, [])
    ∧ update_phase2_status "2024-03-01 09:00:00" dbA 1 "maybe" none none = dbA :=
  C10_unrecognized_decision_is_noop "2024-03-01 09:00:00" "01/03/2024"
    "http://localhost:5000" "0AB1C2D3E4F50617" "conv.pdf" true
    dbA 1 "banana" "maybe" none none none none
    (by decide) (by decide) (by decide) (by decide)

/-- C1 (amended): `update_phase2_status` contains no guard on the phase-1
state — an `accepted` or `rejected` phase-2 decision is applied whatever
`phase1_status` holds (in particular `pending` or `rejected`): the row's
`phase2_status` becomes the decision, `workflow_phase` becomes `completed`,
and no `InvalidTransition`-style rejection path exists. -/
theorem C1_phase2_decision_applies_regardless_of_phase1
    (now : String) (db : DB) (app_id : Nat) (d : String)
    (wsd rr : Option String) (a : Application)
    (ha : findApp db app_id = some a)
    (hd : d = "accepted" ∨ d = "rejected") :
    ∃ a', findApp (update_phase2_status now db app_id d wsd rr) app_id = some a'
      ∧ a'.phase2_status = some d
      ∧ a'.workflow_phase = "completed"
      ∧ a'.phase1_status = a.phase1_status := by
  rcases hd with hd | hd <;> subst hd
  · unfold update_phase2_status
    rw [if_pos rfl, findApp_mapApp, ha]
    exact ⟨_, rfl, rfl, rfl, rfl⟩
  · unfold update_phase2_status
    rw [if_neg (by decide), if_pos rfl, findApp_mapApp, ha]
    exact ⟨_, rfl, rfl, rfl, rfl⟩

theorem C1_counterexample :
    (findApp (update_phase2_status "2024-03-01 09:00:00" dbA 1 "accepted"
        (some "2024-04-01") none) 1).map (fun a => a.phase2_status)
      = some (some "accepted")
    ∧ (findApp dbA 1).map (fun a => a.phase1_status) = some "pending"
    ∧ update_phase2_status "2024-03-01 09:00:00" dbA 1 "accepted"
        (some "2024-04-01") none ≠ dbA := by decide

theorem C1_witness :
    ∃ a', findApp (update_phase2_status "2024-03-01 09:00:00" dbA 1 "accepted"
        (some "2024-04-01") none) 1 = some a'
      ∧ a'.phase2_status = some "accepted"
      ∧ a'.workflow_phase = "completed"
      ∧ a'.phase1_status = appA.phase1_status :=
  C1_phase2_decision_applies_regardless_of_phase1 "2024-03-01 09:00:00" dbA 1
    "accepted" (some "2024-04-01") none appA (by decide) (Or.inl rfl)

/-- C5 (amended): a `selected_for_interview` decision with no
`interview_date` is not rejected and does write: `update_phase1_status`
checks only the decision string, so the row still gets
`phase1_status = 'selected_for_interview'`, a NULL `interview_date`,
`workflow_phase = 'phase1'` and `status = 'interview programmé'`; no
`MissingRequiredField`-style error exists (only the route's PDF block is
skipped, which is governed by the date being truthy). -/
theorem C5_selected_without_date_still_written
    (now issueDate base_url code fn : String) (pdfOk : Bool)
    (db : DB) (app_id : Nat) (rr : Option String) (a : Application)
    (ha : findApp db app_id = some a) :
    ∃ a', findApp (update_phase1_status now issueDate base_url code fn pdfOk
        db app_id "selected_for_interview" none rr).1 app_id = some a'
      ∧ a'.phase1_status = "selected_for_interview"
      ∧ a'.interview_date = none
      ∧ a'.workflow_phase = "phase1"
      ∧ a'.status = "interview programmé" := by
  unfold update_phase1_status
  rw [if_pos rfl]
  dsimp only
  rw [findApp_mapApp, ha]
  cases pdfOk with
  | false =>
    show ∃ a', findApp (mapApp db app_id _) app_id = some a' ∧ _
    rw [findApp_mapApp, ha]
    exact ⟨_, rfl, rfl, rfl, rfl, rfl⟩
  | true =>
    show ∃ a', findApp (mapApp (mapApp db app_id _) app_id _) app_id = some a' ∧ _
    rw [findApp_mapApp, findApp_mapApp, ha]
    exact ⟨_, rfl, rfl, rfl, rfl, rfl⟩

theorem C5_counterexample :
    (update_phase1_status "2024-03-01 09:00:00" "01/03/2024"
        "http://localhost:5000" "0AB1C2D3E4F50617" "conv.pdf" false
        dbA 1 "selected_for_interview" none none).1 ≠ dbA
    ∧ ((findApp (update_phase1_status "2024-03-01 09:00:00" "01/03/2024"
        "http://localhost:5000" "0AB1C2D3E4F50617" "conv.pdf" false
        dbA 1 "selected_for_interview" none none).1 1).map
        (fun a => (a.phase1_status, a.interview_date, a.status)))
      = some ("selected_for_interview", none, "interview programmé") := by
  decide

theorem C5_witness :
    ∃ a', findApp (update_phase1_status "2024-03-01 09:00:00" "01/03/2024"
        "http://localhost:5000" "0AB1C2D3E4F50617" "conv.pdf" true
        dbA 1 "selected_for_interview" none none).1 1 = some a'
      ∧ a'.phase1_status = "selected_for_interview"
      ∧ a'.interview_date = none
      ∧ a'.workflow_phase = "phase1"
      ∧ a'.status = "interview programmé" :=
  C5_selected_without_date_still_written "2024-03-01 09:00:00" "01/03/2024"
    "http://localhost:5000" "0AB1C2D3E4F50617" "conv.pdf" true
    dbA 1 none appA (by decide)

theorem dv_save_interview_invitation_pdf (db : DB) (i : Nat)
    (fr : String) (ar : Option String) :
    (save_interview_invitation_pdf db i fr ar).document_verifications
      = db.document_verifications := by
  unfold save_interview_invitation_pdf
  split <;> rfl

theorem dv_save_acceptance_letter_pdf (db : DB) (i : Nat)
    (fr : String) (ar : Option String) :
    (save_acceptance_letter_pdf db i fr ar).document_verifications
      = db.document_verifications := by
  unfold save_acceptance_letter_pdf
  split <;> rfl

theorem update_phase1_selected_dv (now issueDate base_url code fn : String)
    (db : DB) (i : Nat) (idate rr : Option String) (a : Application)
    (ha : findApp db i = some a) :
    ∃ v, (update_phase1_status now issueDate base_url code fn true
        db i "selected_for_interview" idate rr).1.document_verifications
      = db.document_verifications ++ [v]
      ∧ v.verification_code = code ∧ v.document_type = "convocation"
      ∧ v.application_id = i
      ∧ (update_phase1_status now issueDate base_url code fn true
          db i "selected_for_interview" idate rr).2
        = [⟨"static/convocations/" ++ fn, verification_url base_url code⟩] := by
  unfold update_phase1_status
  rw [if_pos rfl]
  dsimp only
  rw [findApp_mapApp, ha]
  exact ⟨_, rfl, rfl, rfl, rfl, rfl⟩

theorem admin_phase1_selected_dv (now issueDate bm c1 f1 b c2 fnFr : String)
    (db : DB) (app_id : Nat) (idate : String) (rr sjt : Option String)
    (a : Application) (ha : findApp db app_id = some a)
    (hdate : idate ≠ "") :
    ∃ v1 v2 d1,
      (admin_phase1_decision now issueDate bm c1 f1 true b c2 fnFr
          db app_id "selected_for_interview" (some idate) rr
          sjt).1.document_verifications
        = (db.document_verifications ++ [v1]) ++ [v2]
      ∧ v1.verification_code = c1 ∧ v1.document_type = "convocation"
      ∧ v1.application_id = app_id
      ∧ v2.verification_code = c2 ∧ v2.document_type = "convocation"
      ∧ v2.application_id = app_id
      ∧ (admin_phase1_decision now issueDate bm c1 f1 true b c2 fnFr
          db app_id "selected_for_interview" (some idate) rr sjt).2
        = [d1, ⟨"static/convocations/" ++ fnFr, verification_url b c2⟩,
           ⟨"static/convocations/" ++ arFilename fnFr, verification_url b c2⟩]
      ∧ d1.qr_url = verification_url bm c1 := by
  have htr : truthy (some idate) = true := by
    simp [truthy, hdate]
  unfold admin_phase1_decision
  rw [ha]
  dsimp only
  by_cases hjob : a.job_id = none ∧ truthy sjt = true
  · rw [if_pos hjob, if_pos hjob, if_pos ⟨rfl, htr⟩]
    have hfa := findApp_mapApp db app_id
      (fun x => { x with selected_job_title := sjt })
    rw [ha] at hfa
    obtain ⟨v1, hdv1, hc1, ht1, hai1, hdocs1⟩ :=
      update_phase1_selected_dv now issueDate bm c1 f1 _ app_id
        (some idate) rr _ (hfa.trans rfl)
    refine ⟨v1,
      ⟨c2, app_id, "convocation", a.prenom ++ " " ++ a.nom,
       pyOr a.selected_job_title (sjt.getD ""), issueDate, fnFr, "valide"⟩,
      ⟨"static/convocations/" ++ f1, verification_url bm c1⟩,
      ?_, hc1, ht1, hai1, rfl, rfl, rfl, ?_, rfl⟩
    · show (save_interview_invitation_pdf _ app_id fnFr
          (some (arFilename fnFr))).document_verifications ++ _ = _
      rw [dv_save_interview_invitation_pdf, hdv1, mapApp_dv]
    · show (update_phase1_status now issueDate bm c1 f1 true _ app_id
          "selected_for_interview" (some idate) rr).2 ++ _ = _
      rw [hdocs1]
      rfl
  · rw [if_neg hjob, if_neg hjob, if_pos ⟨rfl, htr⟩]
    obtain ⟨v1, hdv1, hc1, ht1, hai1, hdocs1⟩ :=
      update_phase1_selected_dv now issueDate bm c1 f1 db app_id
        (some idate) rr a ha
    refine ⟨v1,
      ⟨c2, app_id, "convocation", a.prenom ++ " " ++ a.nom,
       pyOr a.selected_job_title a.job_title, issueDate, fnFr, "valide"⟩,
      ⟨"static/convocations/" ++ f1, verification_url bm c1⟩,
      ?_, hc1, ht1, hai1, rfl, rfl, rfl, ?_, rfl⟩
    · show (save_interview_invitation_pdf _ app_id fnFr
          (some (arFilename fnFr))).document_verifications ++ _ = _
      rw [dv_save_interview_invitation_pdf, hdv1]
    · show (update_phase1_status now issueDate bm c1 f1 true db app_id
          "selected_for_interview" (some idate) rr).2 ++ _ = _
      rw [hdocs1]
      rfl

/-- C4 (amended): a phase-1 decision of `selected_for_interview` with an
interview date issues TWO verification codes and inserts TWO new
`document_verifications` rows of type `convocation`, not one:
`models.update_phase1_status` issues its own code `c1` (covering its single
French render), and the route then issues a second code `c2` shared by its
French and Arabic renders and inserts a second row; the prior ledger entries
are untouched. -/
theorem C4_phase1_selection_issues_two_codes
    (now issueDate bm c1 f1 b c2 fnFr : String)
    (db : DB) (app_id : Nat) (idate : String) (rr sjt : Option String)
    (a : Application) (ha : findApp db app_id = some a)
    (hdate : idate ≠ "") :
    ((admin_phase1_decision now issueDate bm c1 f1 true b c2 fnFr
        db app_id "selected_for_interview" (some idate) rr
        sjt).1.document_verifications.drop
        db.document_verifications.length).map
        (fun r => (r.verification_code, r.document_type, r.application_id))
      = [(c1, "convocation", app_id), (c2, "convocation", app_id)]
    ∧ (admin_phase1_decision now issueDate bm c1 f1 true b c2 fnFr
        db app_id "selected_for_interview" (some idate) rr
        sjt).1.document_verifications.take
        db.document_verifications.length = db.document_verifications
    ∧ (admin_phase1_decision now issueDate bm c1 f1 true b c2 fnFr
        db app_id "selected_for_interview" (some idate) rr sjt).2.map
        (fun d => d.qr_url)
      = [verification_url bm c1, verification_url b c2,
         verification_url b c2] := by
  obtain ⟨v1, v2, d1, hdv, hc1, ht1, hai1, hc2, ht2, hai2, hdocs, hd1⟩ :=
    admin_phase1_selected_dv now issueDate bm c1 f1 b c2 fnFr
      db app_id idate rr sjt a ha hdate
  refine ⟨?_, ?_, ?_⟩
  · rw [hdv, List.append_assoc, List.drop_left]
    simp [hc1, ht1, hai1, hc2, ht2, hai2]
  · rw [hdv, List.append_assoc, List.take_left]
  · rw [hdocs]
    simp [hd1]

theorem C4_counterexample :
    ((admin_phase1_decision "2024-03-01 09:00:00" "01/03/2024"
        "http://localhost:5000" "AAAA1111AAAA1111" "conv.pdf" true
        "http://localhost:5000" "BBBB2222BBBB2222"
        "Convocation_Entretien_Ali_Said_1.pdf" dbA 1 "selected_for_interview"
        (some "2024-04-01") none none).1.document_verifications.filter
        (fun r => r.document_type == "convocation")).map
        (fun r => r.verification_code)
      = ["AAAA1111AAAA1111", "BBBB2222BBBB2222"]
    ∧ ("AAAA1111AAAA1111" : String) ≠ "BBBB2222BBBB2222" := by decide

theorem C4_witness :
    ((admin_phase1_decision "2024-03-01 09:00:00" "01/03/2024"
        "http://localhost:5000" "AAAA1111AAAA1111" "conv.pdf" true
        "http://localhost:5000" "BBBB2222BBBB2222"
        "Convocation_Entretien_Ali_Said_1.pdf" dbA 1 "selected_for_interview"
        (some "2024-04-01") none
        none).1.document_verifications.drop
        dbA.document_verifications.length).map
        (fun r => (r.verification_code, r.document_type, r.application_id))
      = [("AAAA1111AAAA1111", "convocation", 1),
         ("BBBB2222BBBB2222", "convocation", 1)]
    ∧ (admin_phase1_decision "2024-03-01 09:00:00" "01/03/2024"
        "http://localhost:5000" "AAAA1111AAAA1111" "conv.pdf" true
        "http://localhost:5000" "BBBB2222BBBB2222"
        "Convocation_Entretien_Ali_Said_1.pdf" dbA 1 "selected_for_interview"
        (some "2024-04-01") none
        none).1.document_verifications.take
        dbA.document_verifications.length = dbA.document_verifications
    ∧ (admin_phase1_decision "2024-03-01 09:00:00" "01/03/2024"
        "http://localhost:5000" "AAAA1111AAAA1111" "conv.pdf" true
        "http://localhost:5000" "BBBB2222BBBB2222"
        "Convocation_Entretien_Ali_Said_1.pdf" dbA 1 "selected_for_interview"
        (some "2024-04-01") none none).2.map (fun d => d.qr_url)
      = [verification_url "http://localhost:5000" "AAAA1111AAAA1111",
         verification_url "http://localhost:5000" "BBBB2222BBBB2222",
         verification_url "http://localhost:5000" "BBBB2222BBBB2222"] :=
  C4_phase1_selection_issues_two_codes "2024-03-01 09:00:00" "01/03/2024"
    "http://localhost:5000" "AAAA1111AAAA1111" "conv.pdf"
    "http://localhost:5000" "BBBB2222BBBB2222"
    "Convocation_Entretien_Ali_Said_1.pdf" dbA 1 "2024-04-01" none none
    appA (by decide) (by decide)

/-- C6: after the phase-1 selection flow issues its route-level code `c2`
(fresh with respect to the existing ledger and distinct from the
models-level code `c1`), looking `c2` up through the public endpoint
returns a ledger row whose `application_id` is the deciding application and
whose `document_type` is `convocation` and whose stored code is `c2`
itself; and the two route renders embed exactly the URL
`{base_url}/verify/{c2}` in their QR codes — the code agrees in the ledger,
the lookup result and the rendered documents. -/
theorem C6_issue_lookup_render_roundtrip
    (now issueDate bm c1 f1 b c2 fnFr : String)
    (db : DB) (app_id : Nat) (idate : String) (rr sjt : Option String)
    (a : Application) (ha : findApp db app_id = some a)
    (hdate : idate ≠ "")
    (hup : pyUpper c2 = c2)
    (hfresh : ∀ r ∈ db.document_verifications, r.verification_code ≠ c2)
    (hne : c1 ≠ c2) :
    ∃ r, verify_document
        (admin_phase1_decision now issueDate bm c1 f1 true b c2 fnFr
            db app_id "selected_for_interview" (some idate) rr sjt).1 c2
        = some r
      ∧ r.application_id = app_id
      ∧ r.document_type = "convocation"
      ∧ r.verification_code = c2
      ∧ ∃ ds, (admin_phase1_decision now issueDate bm c1 f1 true b c2 fnFr
            db app_id "selected_for_interview" (some idate) rr sjt).2
          = ds ++ [⟨"static/convocations/" ++ fnFr, b ++ "/verify/" ++ c2⟩,
             ⟨"static/convocations/" ++ arFilename fnFr,
              b ++ "/verify/" ++ c2⟩] := by
  obtain ⟨v1, v2, d1, hdv, hc1, ht1, hai1, hc2, ht2, hai2, hdocs, hd1⟩ :=
    admin_phase1_selected_dv now issueDate bm c1 f1 b c2 fnFr
      db app_id idate rr sjt a ha hdate
  refine ⟨v2, ?_, hai2, ht2, hc2, ⟨[d1], by rw [hdocs]; rfl⟩⟩
  show lookupVerification _ (pyUpper c2) = some v2
  unfold lookupVerification
  rw [hup, hdv]
  rw [find_append_right]
  · show List.find? _ [v2] = some v2
    have : (fun r => r.verification_code = c2) v2 = true := by
      simp [hc2]
    simp [List.find?, this]
  · intro x hx
    rcases List.mem_append.1 hx with h | h
    · simpa using hfresh x h
    · rcases List.mem_singleton.1 h with rfl
      simp [hc1, hne]

theorem C6_witness :
    ∃ r, verify_document
        (admin_phase1_decision "2024-03-01 09:00:00" "01/03/2024"
            "http://localhost:5000" "AAAA1111AAAA1111" "conv.pdf" true
            "http://localhost:5000" "78A8E0DC69FB5DF0"
            "Convocation_Entretien_Ali_Said_1.pdf" dbA 1
            "selected_for_interview" (some "2024-04-01") none none).1
        "78A8E0DC69FB5DF0" = some r
      ∧ r.application_id = 1
      ∧ r.document_type = "convocation"
      ∧ r.verification_code = "78A8E0DC69FB5DF0"
      ∧ ∃ ds, (admin_phase1_decision "2024-03-01 09:00:00" "01/03/2024"
            "http://localhost:5000" "AAAA1111AAAA1111" "conv.pdf" true
            "http://localhost:5000" "78A8E0DC69FB5DF0"
            "Convocation_Entretien_Ali_Said_1.pdf" dbA 1
            "selected_for_interview" (some "2024-04-01") none none).2
          = ds ++ [⟨"static/convocations/" ++
                "Convocation_Entretien_Ali_Said_1.pdf",
               "http://localhost:5000" ++ "/verify/" ++ "78A8E0DC69FB5DF0"⟩,
             ⟨"static/convocations/" ++
                arFilename "Convocation_Entretien_Ali_Said_1.pdf",
               "http://localhost:5000" ++ "/verify/" ++ "78A8E0DC69FB5DF0"⟩] :=
  C6_issue_lookup_render_roundtrip "2024-03-01 09:00:00" "01/03/2024"
    "http://localhost:5000" "AAAA1111AAAA1111" "conv.pdf"
    "http://localhost:5000" "78A8E0DC69FB5DF0"
    "Convocation_Entretien_Ali_Said_1.pdf" dbA 1 "2024-04-01" none none
    appA (by decide) (by decide) (by decide) (by decide) (by decide)

/-- C2: regenerating the acceptance letters of an accepted application
issues a fresh code and embeds it in both rendered letters, but the route
inserts NO `document_verifications` row: the ledger comes back unchanged —
so every previously issued code still resolves to its untouched record —
while looking up the code just stamped onto the regenerated letters finds
nothing. -/
theorem C2_regenerate_records_nothing
    (base_url code fnFr : String) (db : DB) (app_id : Nat) (a : Application)
    (ha : findApp db app_id = some a)
    (hacc : a.phase2_status = some "accepted")
    (hfresh : ∀ r ∈ db.document_verifications,
        r.verification_code ≠ pyUpper code) :
    (admin_regenerate_acceptance_letter base_url code fnFr
        db app_id).1.document_verifications = db.document_verifications
    ∧ verify_document
        (admin_regenerate_acceptance_letter base_url code fnFr db app_id).1
        code = none
    ∧ (∀ q, verify_document
        (admin_regenerate_acceptance_letter base_url code fnFr db app_id).1 q
          = verify_document db q)
    ∧ (admin_regenerate_acceptance_letter base_url code fnFr db app_id).2.map
        (fun d => d.qr_url)
      = [verification_url base_url code, verification_url base_url code] := by
  have hres : admin_regenerate_acceptance_letter base_url code fnFr db app_id
      = (save_acceptance_letter_pdf db app_id fnFr (some (arFilename fnFr)),
         [⟨"static/acceptances/" ++ fnFr, verification_url base_url code⟩,
          ⟨"static/acceptances/" ++ arFilename fnFr,
           verification_url base_url code⟩]) := by
    unfold admin_regenerate_acceptance_letter
    rw [ha]
    dsimp only
    rw [if_neg (by rw [hacc]; intro h; exact h rfl)]
  rw [hres]
  have hdv : (save_acceptance_letter_pdf db app_id fnFr
      (some (arFilename fnFr))).document_verifications
      = db.document_verifications :=
    dv_save_acceptance_letter_pdf _ _ _ _
  refine ⟨hdv, ?_, ?_, rfl⟩
  · show lookupVerification _ (pyUpper code) = none
    unfold lookupVerification
    rw [hdv]
    apply find_none
    intro x hx
    simpa using hfresh x hx
  · intro q
    show lookupVerification _ (pyUpper q) = lookupVerification db (pyUpper q)
    unfold lookupVerification
    rw [hdv]

theorem C2_witness :
    (admin_regenerate_acceptance_letter "http://localhost:5000"
        "1234ABCD1234ABCD" "lettre.pdf" dbB 2).1.document_verifications
      = dbB.document_verifications
    ∧ verify_document (admin_regenerate_acceptance_letter "http://localhost:5000"
        "1234ABCD1234ABCD" "lettre.pdf" dbB 2).1 "1234ABCD1234ABCD" = none
    ∧ (∀ q, verify_document (admin_regenerate_acceptance_letter "http://localhost:5000"
        "1234ABCD1234ABCD" "lettre.pdf" dbB 2).1 q = verify_document dbB q)
    ∧ (admin_regenerate_acceptance_letter "http://localhost:5000"
        "1234ABCD1234ABCD" "lettre.pdf" dbB 2).2.map (fun d => d.qr_url)
      = [verification_url "http://localhost:5000" "1234ABCD1234ABCD",
         verification_url "http://localhost:5000" "1234ABCD1234ABCD"] :=
  C2_regenerate_records_nothing "http://localhost:5000" "1234ABCD1234ABCD"
    "lettre.pdf" dbB 2 appAcc (by decide) rfl (by decide)

/-- The workflow phase a recognized decision drives the row to; an
unrecognized one leaves it alone. -/
def stepPhase (w : String) (ev : DecisionEvent) : String :=
  if recognized ev then (if terminal ev then "completed" else "phase1") else w

theorem applyDecision_workflow (db : DB) (i : Nat) (ev : DecisionEvent)
    (a : Application) (ha : findApp db i = some a) :
    ∃ a', findApp (applyDecision i db ev) i = some a'
      ∧ a'.workflow_phase = stepPhase a.workflow_phase ev := by
  cases ev with
  | p1 now issueDate base_url code fn pdfOk d idate rr =>
    show ∃ a', findApp (update_phase1_status now issueDate base_url code fn
        pdfOk db i d idate rr).1 i = some a' ∧ _
    by_cases h1 : d = "selected_for_interview"
    · subst h1
      unfold update_phase1_status
      rw [if_pos rfl]
      dsimp only
      rw [findApp_mapApp, ha]
      cases pdfOk with
      | false =>
        show ∃ a', findApp (mapApp db i _) i = some a' ∧ _
        rw [findApp_mapApp, ha]
        exact ⟨_, rfl, rfl⟩
      | true =>
        show ∃ a', findApp (mapApp (mapApp db i _) i _) i = some a' ∧ _
        rw [findApp_mapApp, findApp_mapApp, ha]
        exact ⟨_, rfl, rfl⟩
    · by_cases h2 : d = "rejected"
      · subst h2
        unfold update_phase1_status
        rw [if_neg h1, if_pos rfl]
        show ∃ a', findApp (mapApp db i _) i = some a' ∧ _
        rw [findApp_mapApp, ha]
        exact ⟨_, rfl, rfl⟩
      · unfold update_phase1_status
        rw [if_neg h1, if_neg h2]
        refine ⟨a, ha, ?_⟩
        unfold stepPhase recognized
        rw [if_neg (by simp [h1, h2])]
  | p2 now d wsd rr =>
    show ∃ a', findApp (update_phase2_status now db i d wsd rr) i = some a' ∧ _
    by_cases h1 : d = "accepted"
    · subst h1
      unfold update_phase2_status
      rw [if_pos rfl, findApp_mapApp, ha]
      exact ⟨_, rfl, rfl⟩
    · by_cases h2 : d = "rejected"
      · subst h2
        unfold update_phase2_status
        rw [if_neg h1, if_pos rfl, findApp_mapApp, ha]
        exact ⟨_, rfl, rfl⟩
      · unfold update_phase2_status
        rw [if_neg h1, if_neg h2]
        refine ⟨a, ha, ?_⟩
        unfold stepPhase recognized
        rw [if_neg (by simp [h1, h2])]

theorem runDecisions_workflow (i : Nat) (evs : List DecisionEvent) :
    ∀ db a, findApp db i = some a →
      ∃ a', findApp (runDecisions db i evs) i = some a'
        ∧ a'.workflow_phase = evs.foldl stepPhase a.workflow_phase := by
  induction evs with
  | nil => exact fun db a ha => ⟨a, ha, rfl⟩
  | cons ev rest ih =>
    intro db a ha
    obtain ⟨a1, ha1, hw1⟩ := applyDecision_workflow db i ev a ha
    obtain ⟨a', ha', hw'⟩ := ih (applyDecision i db ev) a1 ha1
    exact ⟨a', ha', by rw [hw', hw1]; rfl⟩

theorem lastRecognized_cons (ev : DecisionEvent) (rest : List DecisionEvent) :
    lastRecognized (ev :: rest) =
      (match lastRecognized rest with
       | some x => some x
       | none => if recognized ev then some ev else none) := rfl

theorem foldl_stepPhase_eq_lastRecognized (evs : List DecisionEvent) :
    ∀ w, evs.foldl stepPhase w =
      (match lastRecognized evs with
       | none => w
       | some ev => if terminal ev then "completed" else "phase1") := by
  induction evs with
  | nil => intro w; rfl
  | cons ev rest ih =>
    intro w
    show rest.foldl stepPhase (stepPhase w ev) = _
    rw [ih, lastRecognized_cons]
    cases hr : lastRecognized rest with
    | some x => rfl
    | none =>
      cases h : recognized ev with
      | true => simp [stepPhase, h]
      | false => simp [stepPhase, h]

/-- C7 (amended): after any sequence of posted phase decisions,
`workflow_phase` reflects the LAST recognized decision, not the presence of
a terminal one in the history: it equals `completed` iff that last
recognized decision was terminal (a phase-1 rejection, or a phase-2
acceptance or rejection), and equals `phase1` when it was a phase-1
selection for interview — in particular a phase-1 selection always leaves
`workflow_phase ≠ 'completed'`, even when a terminal decision had been
recorded earlier in the sequence. -/
theorem C7_workflow_completed_iff_last_recognized_terminal
    (db : DB) (app_id : Nat) (evs : List DecisionEvent) (a : Application)
    (ha : findApp db app_id = some a) :
    ∃ a', findApp (runDecisions db app_id evs) app_id = some a'
      ∧ a'.workflow_phase =
          (match lastRecognized evs with
           | none => a.workflow_phase
           | some ev => if terminal ev then "completed" else "phase1")
      ∧ (∀ ev, lastRecognized evs = some ev →
          (a'.workflow_phase = "completed" ↔ terminal ev = true)) := by
  obtain ⟨a', h1, h2⟩ := runDecisions_workflow app_id evs db a ha
  rw [foldl_stepPhase_eq_lastRecognized] at h2
  refine ⟨a', h1, h2, ?_⟩
  intro ev hev
  rw [h2, hev]
  cases ht : terminal ev with
  | true => simp [ht]
  | false =>
    simp only [ht, if_false]
    constructor
    · intro hc
      cases (by decide : ¬"phase1" = "completed") hc
    · intro hc
      cases hc

/-- A phase-1 selection decision event on a pristine application. -/
def evSelect : DecisionEvent :=
  .p1 "2024-03-01 09:00:00" "01/03/2024" "http://localhost:5000"
    "0AB1C2D3E4F50617" "conv.pdf" false "selected_for_interview"
    (some "2024-04-01") none

/-- A phase-2 acceptance decision event. -/
def evAccept : DecisionEvent :=
  .p2 "2024-05-01 09:00:00" "accepted" (some "2024-06-01") none

theorem C7_counterexample :
    (findApp (runDecisions dbA 1 [evSelect, evAccept, evSelect]) 1).map
        (fun a => (a.workflow_phase, a.phase2_status))
      = some ("phase1", some "accepted")
    ∧ terminal evAccept = true := by decide

theorem C7_witness :
    ∃ a', findApp (runDecisions dbA 1 [evSelect]) 1 = some a'
      ∧ a'.workflow_phase =
          (match lastRecognized [evSelect] with
           | none => appA.workflow_phase
           | some ev => if terminal ev then "completed" else "phase1")
      ∧ (∀ ev, lastRecognized [evSelect] = some ev →
          (a'.workflow_phase = "completed" ↔ terminal ev = true)) :=
  C7_workflow_completed_iff_last_recognized_terminal dbA 1 [evSelect] appA
    (by decide)

/-- The sixteen characters an uppercased hex digit can be. -/
def upperHexDigits : List Char := "0123456789ABCDEF".toList

theorem hexChar_mem (n : Nat) : hexChar n ∈ hexDigits := by
  have h : n % 16 < 16 := Nat.mod_lt _ (by norm_num)
  exact (by decide : ∀ m < 16, hexDigits.getD m '0' ∈ hexDigits) _ h

theorem toHexFixed_length (w : Nat) : ∀ n, (toHexFixed w n).length = w := by
  induction w with
  | zero => intro n; rfl
  | succ w ih =>
    intro n
    show (toHexFixed w (n / 16) ++ [hexChar n]).length = w + 1
    rw [List.length_append, ih]
    rfl

theorem toHexFixed_mem (w : Nat) :
    ∀ n, ∀ c ∈ toHexFixed w n, c ∈ hexDigits := by
  induction w with
  | zero => intro n c hc; cases hc
  | succ w ih =>
    intro n c hc
    rcases List.mem_append.1 hc with h | h
    · exact ih _ c h
    · rcases List.mem_singleton.1 h with rfl
      exact hexChar_mem n

theorem toUpper_hexDigit (c : Char) (hc : c ∈ hexDigits) :
    c.toUpper ∈ upperHexDigits :=
  (by decide : ∀ x ∈ hexDigits, x.toUpper ∈ upperHexDigits) c hc

theorem sha256hexdigest_eq (msg : List Nat) :
    (sha256hexdigest msg).toList
      = toHexFixed 8 (sha256 msg).h0 ++ toHexFixed 8 (sha256 msg).h1 ++
        toHexFixed 8 (sha256 msg).h2 ++ toHexFixed 8 (sha256 msg).h3 ++
        toHexFixed 8 (sha256 msg).h4 ++ toHexFixed 8 (sha256 msg).h5 ++
        toHexFixed 8 (sha256 msg).h6 ++ toHexFixed 8 (sha256 msg).h7 := rfl

theorem sha256hexdigest_length (msg : List Nat) :
    (sha256hexdigest msg).toList.length = 64 := by
  rw [sha256hexdigest_eq]
  simp [List.length_append, toHexFixed_length]

theorem sha256hexdigest_mem (msg : List Nat) :
    ∀ c ∈ (sha256hexdigest msg).toList, c ∈ hexDigits := by
  intro c hc
  rw [sha256hexdigest_eq] at hc
  simp only [List.mem_append] at hc
  rcases hc with ((((((hc | hc) | hc) | hc) | hc) | hc) | hc) | hc <;>
    exact toHexFixed_mem _ _ c hc

set_option maxHeartbeats 1000000 in
theorem generate_verification_code_eq (application_id : Nat)
    (document_type timestamp random_salt : String) :
    (generate_verification_code application_id document_type timestamp
        random_salt).toList
      = ((sha256hexdigest (strBytes (toString application_id ++ "-" ++
          document_type ++ "-" ++ timestamp ++ "-" ++
          random_salt))).toList.take 16).map Char.toUpper := by
  unfold generate_verification_code
  rfl

/-- C8: `generate_verification_code` is the uppercased 16-hex-character
prefix of the SHA-256 hex digest (64 hex characters, 256 bits) of the
dash-joined concatenation of the application id, the document type, the
timestamp (`datetime.now().isoformat()` at the call site) and the random
salt (`secrets.token_hex(16)` at the call site: 32 hex characters, 128 bits
of CSPRNG entropy, the hypothesis records its length); the output is always
exactly 16 characters, each an uppercase hex digit. -/
theorem C8_verification_code_shape (application_id : Nat)
    (document_type timestamp random_salt : String)
    (hsalt : random_salt.length = 32) :
    generate_verification_code application_id document_type timestamp
        random_salt
      = String.mk (((sha256hexdigest (strBytes (toString application_id ++
          "-" ++ document_type ++ "-" ++ timestamp ++ "-" ++
          random_salt))).toList.take 16).map Char.toUpper)
    ∧ (sha256hexdigest (strBytes (toString application_id ++ "-" ++
        document_type ++ "-" ++ timestamp ++ "-" ++
        random_salt))).toList.length = 64
    ∧ (generate_verification_code application_id document_type timestamp
        random_salt).toList.length = 16
    ∧ ∀ c ∈ (generate_verification_code application_id document_type
        timestamp random_salt).toList, c ∈ upperHexDigits := by
  refine ⟨rfl, sha256hexdigest_length _, ?_, ?_⟩
  · rw [generate_verification_code_eq, List.length_map, List.length_take,
      sha256hexdigest_length]
    decide
  · intro c hc
    rw [generate_verification_code_eq] at hc
    rcases List.mem_map.1 hc with ⟨c', hc'', rfl⟩
    exact toUpper_hexDigit c'
      (sha256hexdigest_mem _ c' (List.mem_of_mem_take hc''))

theorem C8_witness :
    ("0123456789abcdef0123456789abcdef" : String).length = 32
    ∧ (generate_verification_code 7 "convocation" "2024-01-01T00:00:00"
          "0123456789abcdef0123456789abcdef"
        = String.mk (((sha256hexdigest (strBytes (toString 7 ++ "-" ++
            "convocation" ++ "-" ++ "2024-01-01T00:00:00" ++ "-" ++
            "0123456789abcdef0123456789abcdef"))).toList.take 16).map
            Char.toUpper)
      ∧ (sha256hexdigest (strBytes (toString 7 ++ "-" ++ "convocation" ++
          "-" ++ "2024-01-01T00:00:00" ++ "-" ++
          "0123456789abcdef0123456789abcdef"))).toList.length = 64
      ∧ (generate_verification_code 7 "convocation" "2024-01-01T00:00:00"
          "0123456789abcdef0123456789abcdef").toList.length = 16
      ∧ ∀ c ∈ (generate_verification_code 7 "convocation"
          "2024-01-01T00:00:00"
          "0123456789abcdef0123456789abcdef").toList, c ∈ upperHexDigits) :=
  ⟨by decide,
   C8_verification_code_shape 7 "convocation" "2024-01-01T00:00:00"
     "0123456789abcdef0123456789abcdef" (by decide)⟩

/-- C3 (amended): the public `GET /verify/{code}` endpoint normalizes the
code by uppercasing only — `verification_code.upper()` — with no whitespace
trimming, then looks it up, answering the stored record or an explicit
not-found (`none`); a stored code queried in lower case therefore still
resolves, while a query with surrounding whitespace does not; trimming
happens only in the separate `POST /verify-redirect` form handler, which
strips and uppercases before redirecting. -/
theorem C3_verify_uppercases_but_does_not_trim (db : DB) (q : String) :
    verify_document db q = lookupVerification db (pyUpper q)
    ∧ (verify_document db q = none ↔
        ∀ r ∈ db.document_verifications, r.verification_code ≠ pyUpper q)
    ∧ (∀ r ∈ db.document_verifications, r.verification_code = pyUpper q →
        ∃ r', verify_document db q = some r'
          ∧ r'.verification_code = pyUpper q)
    ∧ verify_redirect db q = (if pyUpper (pyStrip q) = "" then none
        else some (verify_document db (pyUpper (pyStrip q)))) := by
  refine ⟨rfl, ?_, ?_, rfl⟩
  · constructor
    · intro h r hr
      intro hc
      have := find_some_of_mem (fun r => r.verification_code = pyUpper q)
        db.document_verifications r hr (by simpa using hc)
      rcases this with ⟨y, hy, _⟩
      rw [show verify_document db q = db.document_verifications.find?
          (fun r => r.verification_code = pyUpper q) from rfl] at h
      rw [h] at hy
      cases hy
    · intro h
      apply find_none
      intro x hx
      simpa using h x hx
  · intro r hr hc
    have := find_some_of_mem (fun r => r.verification_code = pyUpper q)
      db.document_verifications r hr (by simpa using hc)
    rcases this with ⟨y, hy, hpy⟩
    exact ⟨y, hy, by simpa using hpy⟩

theorem flags_update_phase1 (now issueDate base_url code fn : String)
    (pdfOk : Bool) (db : DB) (i : Nat) (d : String)
    (idate rr : Option String) :
    (update_phase1_status now issueDate base_url code fn pdfOk
        db i d idate rr).1.applications.map flagsOf
      = db.applications.map flagsOf := by
  unfold update_phase1_status
  split
  · dsimp only
    split
    · refine (mapApp_map _ _ _ _ ?_).trans (mapApp_map _ _ _ _ ?_) <;>
        exact fun a => rfl
    · refine mapApp_map _ _ _ _ ?_
      exact fun a => rfl
  · split
    · refine mapApp_map _ _ _ _ ?_
      exact fun a => rfl
    · rfl

theorem flags_update_phase2 (now : String) (db : DB) (i : Nat) (d : String)
    (wsd rr : Option String) :
    (update_phase2_status now db i d wsd rr).applications.map flagsOf
      = db.applications.map flagsOf := by
  unfold update_phase2_status
  split
  · refine mapApp_map _ _ _ _ ?_
    exact fun a => rfl
  · split
    · refine mapApp_map _ _ _ _ ?_
      exact fun a => rfl
    · rfl

theorem flags_add_interview_notes (db : DB) (i : Nat) (notes : String) :
    (add_interview_notes db i notes).applications.map flagsOf
      = db.applications.map flagsOf := by
  refine mapApp_map _ _ _ _ ?_
  exact fun a => rfl

theorem flags_save_interview_invitation_pdf (db : DB) (i : Nat)
    (fr : String) (ar : Option String) :
    (save_interview_invitation_pdf db i fr ar).applications.map flagsOf
      = db.applications.map flagsOf := by
  unfold save_interview_invitation_pdf
  split
  · refine mapApp_map _ _ _ _ ?_
    exact fun a => rfl
  · refine mapApp_map _ _ _ _ ?_
    exact fun a => rfl

theorem flags_save_acceptance_letter_pdf (db : DB) (i : Nat)
    (fr : String) (ar : Option String) :
    (save_acceptance_letter_pdf db i fr ar).applications.map flagsOf
      = db.applications.map flagsOf := by
  unfold save_acceptance_letter_pdf
  split
  · refine mapApp_map _ _ _ _ ?_
    exact fun a => rfl
  · refine mapApp_map _ _ _ _ ?_
    exact fun a => rfl

theorem flags_admin_regenerate (base_url code fnFr : String)
    (db : DB) (i : Nat) :
    (admin_regenerate_acceptance_letter base_url code fnFr
        db i).1.applications.map flagsOf
      = db.applications.map flagsOf := by
  unfold admin_regenerate_acceptance_letter
  split
  · rfl
  · dsimp only
    split
    · rfl
    · exact flags_save_acceptance_letter_pdf _ _ _ _

theorem flags_admin_phase1 (now issueDate base_url_models c1 f1 : String)
    (pdfOk : Bool) (base_url c2 fnFr : String)
    (db : DB) (i : Nat) (d : String) (idate rr sjt : Option String) :
    (admin_phase1_decision now issueDate base_url_models c1 f1 pdfOk
        base_url c2 fnFr db i d idate rr sjt).1.applications.map flagsOf
      = db.applications.map flagsOf := by
  unfold admin_phase1_decision
  split
  · rfl
  · dsimp only
    split
    · exact (flags_save_interview_invitation_pdf _ _ _ _).trans
        ((flags_update_phase1 _ _ _ _ _ _ _ _ _ _ _).trans
          (by split
              · exact mapApp_map _ _ _ (fun x => flagsOf x) (fun a => rfl)
              · rfl))
    · exact (flags_update_phase1 _ _ _ _ _ _ _ _ _ _ _).trans
        (by split
            · exact mapApp_map _ _ _ (fun x => flagsOf x) (fun a => rfl)
            · rfl)

theorem flags_admin_phase2 (now issueDate base_url code fnFr : String)
    (db : DB) (i : Nat) (d : String) (wsd rr notes : Option String) :
    (admin_phase2_decision now issueDate base_url code fnFr
        db i d wsd rr notes).1.applications.map flagsOf
      = db.applications.map flagsOf := by
  unfold admin_phase2_decision
  split
  · rfl
  · dsimp only
    split
    · exact (flags_save_acceptance_letter_pdf _ _ _ _).trans
        ((flags_update_phase2 _ _ _ _ _ _).trans
          (by split
              · exact flags_add_interview_notes _ _ _
              · rfl))
    · exact (flags_update_phase2 _ _ _ _ _ _).trans
        (by split
            · exact flags_add_interview_notes _ _ _
            · rfl)

/-- C9: `mark_notification_sent db app_id phase` with `phase = 1` (resp. 2)
sets exactly the phase-1 (resp. phase-2) flag of the matching row and
nothing else — all non-flag columns of every row, the other phase's flag,
and the verification ledger are untouched, and any other `phase` value is a
no-op; moreover no other operation of the workflow — the two phase updaters,
note taking, the PDF-path savers, the regenerate route and the two admin
decision routes — ever changes either notification flag of any row. -/
theorem C9_notification_flag_isolation :
    (∀ db app_id,
      (mark_notification_sent db app_id 1).applications.map eraseFlags
          = db.applications.map eraseFlags
      ∧ (mark_notification_sent db app_id 1).applications.map
            (fun a => a.phase2_notification_sent)
          = db.applications.map (fun a => a.phase2_notification_sent)
      ∧ (mark_notification_sent db app_id 1).applications.map
            (fun a => (a.id, a.phase1_notification_sent))
          = db.applications.map (fun a =>
              (a.id, if a.id = app_id then true else a.phase1_notification_sent))
      ∧ (mark_notification_sent db app_id 1).document_verifications
          = db.document_verifications)
    ∧ (∀ db app_id,
      (mark_notification_sent db app_id 2).applications.map eraseFlags
          = db.applications.map eraseFlags
      ∧ (mark_notification_sent db app_id 2).applications.map
            (fun a => a.phase1_notification_sent)
          = db.applications.map (fun a => a.phase1_notification_sent)
      ∧ (mark_notification_sent db app_id 2).applications.map
            (fun a => (a.id, a.phase2_notification_sent))
          = db.applications.map (fun a =>
              (a.id, if a.id = app_id then true else a.phase2_notification_sent))
      ∧ (mark_notification_sent db app_id 2).document_verifications
          = db.document_verifications)
    ∧ (∀ phase, phase ≠ 1 → phase ≠ 2 →
        ∀ db app_id, mark_notification_sent db app_id phase = db)
    ∧ (∀ now issueDate base_url code fn pdfOk db i d idate rr,
        (update_phase1_status now issueDate base_url code fn pdfOk
            db i d idate rr).1.applications.map flagsOf
          = db.applications.map flagsOf)
    ∧ (∀ now db i d wsd rr,
        (update_phase2_status now db i d wsd rr).applications.map flagsOf
          = db.applications.map flagsOf)
    ∧ (∀ db i notes,
        (add_interview_notes db i notes).applications.map flagsOf
          = db.applications.map flagsOf)
    ∧ (∀ db i fr ar,
        (save_interview_invitation_pdf db i fr ar).applications.map flagsOf
          = db.applications.map flagsOf)
    ∧ (∀ db i fr ar,
        (save_acceptance_letter_pdf db i fr ar).applications.map flagsOf
          = db.applications.map flagsOf)
    ∧ (∀ base_url code fnFr db i,
        (admin_regenerate_acceptance_letter base_url code fnFr
            db i).1.applications.map flagsOf
          = db.applications.map flagsOf)
    ∧ (∀ now issueDate bm c1 f1 pdfOk b c2 fnFr db i d idate rr sjt,
        (admin_phase1_decision now issueDate bm c1 f1 pdfOk b c2 fnFr
            db i d idate rr sjt).1.applications.map flagsOf
          = db.applications.map flagsOf)
    ∧ (∀ now issueDate b code fnFr db i d wsd rr notes,
        (admin_phase2_decision now issueDate b code fnFr
            db i d wsd rr notes).1.applications.map flagsOf
          = db.applications.map flagsOf) := by
  refine ⟨?_, ?_, ?_, ?_, ?_, ?_, ?_, ?_, ?_, ?_, ?_⟩
  · intro db app_id
    refine ⟨?_, ?_, ?_, rfl⟩
    · unfold mark_notification_sent
      rw [if_pos rfl]
      refine mapApp_map _ _ _ _ ?_
      exact fun a => rfl
    · unfold mark_notification_sent
      rw [if_pos rfl]
      refine mapApp_map _ _ _ _ ?_
      exact fun a => rfl
    · unfold mark_notification_sent
      rw [if_pos rfl]
      show (db.applications.map _).map _ = _
      rw [List.map_map]
      apply List.map_congr_left
      intro a _
      show (fun a => (a.id, a.phase1_notification_sent))
          (if a.id = app_id then _ else a) = _
      by_cases h : a.id = app_id
      · rw [if_pos h, if_pos h]
      · rw [if_neg h, if_neg h]
  · intro db app_id
    refine ⟨?_, ?_, ?_, rfl⟩
    · unfold mark_notification_sent
      rw [if_neg (by decide), if_pos rfl]
      refine mapApp_map _ _ _ _ ?_
      exact fun a => rfl
    · unfold mark_notification_sent
      rw [if_neg (by decide), if_pos rfl]
      refine mapApp_map _ _ _ _ ?_
      exact fun a => rfl
    · unfold mark_notification_sent
      rw [if_neg (by decide), if_pos rfl]
      show (db.applications.map _).map _ = _
      rw [List.map_map]
      apply List.map_congr_left
      intro a _
      show (fun a => (a.id, a.phase2_notification_sent))
          (if a.id = app_id then _ else a) = _
      by_cases h : a.id = app_id
      · rw [if_pos h, if_pos h]
      · rw [if_neg h, if_neg h]
  · intro phase h1 h2 db app_id
    unfold mark_notification_sent
    rw [if_neg h1, if_neg h2]
  · intro now issueDate base_url code fn pdfOk db i d idate rr
    exact flags_update_phase1 _ _ _ _ _ _ _ _ _ _ _
  · intro now db i d wsd rr
    exact flags_update_phase2 _ _ _ _ _ _
  · intro db i notes
    exact flags_add_interview_notes _ _ _
  · intro db i fr ar
    exact flags_save_interview_invitation_pdf _ _ _ _
  · intro db i fr ar
    exact flags_save_acceptance_letter_pdf _ _ _ _
  · intro base_url code fnFr db i
    exact flags_admin_regenerate _ _ _ _ _
  · intro now issueDate bm c1 f1 pdfOk b c2 fnFr db i d idate rr sjt
    exact flags_admin_phase1 _ _ _ _ _ _ _ _ _ _ _ _ _ _ _
  · intro now issueDate b code fnFr db i d wsd rr notes
    exact flags_admin_phase2 _ _ _ _ _ _ _ _ _ _ _

theorem C3_counterexample :
    verify_document dbC " abcd1234abcd1234" = none
    ∧ pyUpper (pyStrip " abcd1234abcd1234") = "ABCD1234ABCD1234"
    ∧ recC ∈ dbC.document_verifications
    ∧ recC.verification_code = "ABCD1234ABCD1234"
    ∧ verify_document dbC "abcd1234abcd1234" = some recC := by decide

end Salsabil
